import Mathlib

/-!
Verification of the continuously_casting_dashboards integration.

This file gives a shallow embedding, in Lean, of the decision logic of the
`continuously_casting_dashboards` custom component:

* `custom_components/continuously_casting_dashboards/utils.py`
  (`TimeWindowChecker`: time parsing, window membership, window selection);
* `custom_components/continuously_casting_dashboards/casting.py`
  (`CastingManager`: in-flight cast guard, retry loop, volume restoration);
* `custom_components/continuously_casting_dashboards/device.py`
  (`DeviceManager`: status-output classification heuristics);
* `custom_components/continuously_casting_dashboards/monitoring.py`
  (`MonitoringManager`: the per-device reconciliation tick and reconnection).

External effects (subprocess invocations of the `catt` tool, wall-clock
reads) are modelled by explicit parameters: probe outcomes are inputs, and
functions that spawn subprocesses additionally return the list of commands
they would have executed, so that "no external command is launched" is a
provable statement about the returned trace.
-/

namespace CCD

/-! ### Python string primitives

The Python string operations the component uses (`split`, `splitlines`,
`strip`, `lower`, `startswith`, `in`, `int(...)`) are implemented here over
character lists, so that every definition evaluates inside the kernel. -/

/-- Does `p` occur at the start of `hay`? (`str.startswith`). -/
def listStartsWith : List Char → List Char → Bool
  | _, [] => true
  | [], _ :: _ => false
  | a :: hs, b :: ps => a == b && listStartsWith hs ps

/-- `str.startswith`. -/
def pyStartsWith (s p : String) : Bool :=
  listStartsWith s.data p.data

/-- Does `needle` occur anywhere in `hay`? (an empty needle always
occurs, as with Python's `in`). -/
def subOccurs : List Char → List Char → Bool
  | [], needle => needle.isEmpty
  | c :: rest, needle => listStartsWith (c :: rest) needle || subOccurs rest needle

/-- Python's `needle in hay` substring test. -/
def strContains (hay needle : String) : Bool :=
  subOccurs hay.data needle.data

/-- `str.split(sep)` for a one-character separator: `"".split(sep)` is
`[""]`, and separators at the ends produce empty chunks. -/
def splitOnChar (sep : Char) : List Char → List (List Char)
  | [] => [[]]
  | c :: cs =>
    let r := splitOnChar sep cs
    if c == sep then [] :: r
    else
      match r with
      | [] => [[c]]
      | h :: t => (c :: h) :: t

/-- Drop leading whitespace. -/
def dropLeadingWs : List Char → List Char
  | [] => []
  | c :: cs => if c.isWhitespace then dropLeadingWs cs else c :: cs

/-- `str.strip()`: remove whitespace from both ends. -/
def pyStrip (s : String) : String :=
  String.mk (dropLeadingWs ((dropLeadingWs s.data.reverse).reverse))

/-- `str.lower()`. -/
def pyToLower (s : String) : String :=
  String.mk (s.data.map Char.toLower)

/-- Digit-sequence accumulator for `int(...)`. -/
def digitsToNatAux (acc : Nat) : List Char → Option Nat
  | [] => some acc
  | c :: cs => if c.isDigit then digitsToNatAux (acc * 10 + (c.toNat - 48)) cs else none

/-- A non-empty digit sequence as a natural number. -/
def digitsToNat : List Char → Option Nat
  | [] => none
  | c :: cs => digitsToNatAux 0 (c :: cs)

/-- Python's `int(str)`: optional surrounding whitespace, optional sign,
then decimal digits; anything else raises (modelled by `none`). -/
def pyToInt (s : String) : Option Int :=
  match dropLeadingWs ((dropLeadingWs s.data.reverse).reverse) with
  | '-' :: rest => (digitsToNat rest).map (fun n => -(n : Int))
  | '+' :: rest => (digitsToNat rest).map (fun n => (n : Int))
  | rest => (digitsToNat rest).map (fun n => (n : Int))

/-- Python `str.splitlines` restricted to `\n` separators: the empty string
has no lines, and a trailing newline does not produce a trailing empty
line. -/
def pySplitlines (s : String) : List String :=
  if s.data.isEmpty then []
  else
    let parts := splitOnChar '\n' s.data
    let parts2 := if parts.getLast? = some [] then parts.dropLast else parts
    parts2.map String.mk

/-- A Python `datetime.time` value: hour, minute, second, microsecond, as
constructed by `dt_time(*map(int, s.split(':')))` in `utils.py` and compared
with Python's lexicographic ordering on time objects. -/
structure PyTime where
  hour : Nat
  minute : Nat
  second : Nat
  usecond : Nat
deriving DecidableEq, Repr

/-- Python's `<` on `datetime.time`: lexicographic on the four components. -/
def PyTime.lt (a b : PyTime) : Bool :=
  decide (a.hour < b.hour) ||
    (decide (a.hour = b.hour) &&
      (decide (a.minute < b.minute) ||
        (decide (a.minute = b.minute) &&
          (decide (a.second < b.second) ||
            (decide (a.second = b.second) && decide (a.usecond < b.usecond))))))

/-- Python's `<=` on `datetime.time`. -/
def PyTime.le (a b : PyTime) : Bool :=
  PyTime.lt a b || decide (a = b)

/-- Validation performed by the `datetime.time` constructor: out-of-range
components raise `ValueError` (which `utils.py` catches). -/
def mkValidTime (h m s us : Int) : Option PyTime :=
  if 0 ≤ h ∧ h < 24 ∧ 0 ≤ m ∧ m < 60 ∧ 0 ≤ s ∧ s < 60 ∧ 0 ≤ us ∧ us < 1000000 then
    some ⟨h.toNat, m.toNat, s.toNat, us.toNat⟩
  else
    none

/-- `dt_time(*ints)`: Python's `time` constructor accepts one to four
positional integer arguments; any other arity raises (caught in `utils.py`). -/
def timeOfParts : List Int → Option PyTime
  | [h] => mkValidTime h 0 0 0
  | [h, m] => mkValidTime h m 0 0
  | [h, m, s] => mkValidTime h m s 0
  | [h, m, s, us] => mkValidTime h m s us
  | _ => none

/-- `dt_time(*map(int, s.split(':')))` from `utils.py` lines 29-30 / 54-55:
split on `:`, convert every chunk with `int`, build a time; any failure is
caught by the surrounding `except`. -/
def parseTime (s : String) : Option PyTime :=
  match ((splitOnChar ':' s.data).map String.mk).mapM pyToInt with
  | some ints => timeOfParts ints
  | none => none

/-- Defaults from `const.py` lines 10-11. -/
def DEFAULT_START_TIME : String := "00:00"

/-- Defaults from `const.py` lines 10-11. -/
def DEFAULT_END_TIME : String := "23:59"

/-- The window-membership test shared by `async_is_within_time_window`
(utils.py lines 36-41) and `get_current_device_config` (utils.py lines
62-67): a non-wrapping window (`start <= end`) contains `now` iff
`start <= now <= end`; a wrapping window (`end < start`) contains `now` iff
`now >= start or now <= end`. -/
def isInWindow (start_time end_time now : PyTime) : Bool :=
  if PyTime.le start_time end_time then
    PyTime.le start_time now && PyTime.le now end_time
  else
    PyTime.le start_time now || PyTime.le now end_time

/-- A device dashboard-window configuration dict, `utils.py`.  The keys the
time-window code reads or writes are explicit fields; every other key is
carried opaquely in `rest`, so frame statements ("no other key changes")
are expressible. -/
structure DeviceConfig where
  start_time : Option String
  end_time : Option String
  parsed_start_time : Option PyTime := none
  parsed_end_time : Option PyTime := none
  rest : List (String × String) := []
deriving DecidableEq, Repr

/-- The `TimeWindowChecker` object state (utils.py lines 13-17). -/
structure TimeWindowChecker where
  default_start_time : String
  default_end_time : String
deriving DecidableEq, Repr

/-- `TimeWindowChecker.__init__` (utils.py lines 13-17): the defaults fall
back to the global config's `start_time` / `end_time`, and those fall back
to `DEFAULT_START_TIME` / `DEFAULT_END_TIME`. -/
def TimeWindowChecker.ofConfig (global_start global_end : Option String) : TimeWindowChecker :=
  ⟨global_start.getD DEFAULT_START_TIME, global_end.getD DEFAULT_END_TIME⟩

/-- `TimeWindowChecker.async_is_within_time_window` (utils.py lines 19-41),
with the current wall-clock time passed explicitly.  Unparseable times
default to "within the window" (`return True`). -/
def TimeWindowChecker.async_is_within_time_window (c : TimeWindowChecker)
    (device_config : DeviceConfig) (now : PyTime) : Bool :=
  let device_start := device_config.start_time.getD c.default_start_time
  let device_end := device_config.end_time.getD c.default_end_time
  match parseTime device_start, parseTime device_end with
  | some start_time, some end_time => isInWindow start_time end_time now
  | _, _ => true

/-- Whether one config's window (with defaults resolved) contains `now`;
configs with unparseable times never match (they are skipped with
`continue` in utils.py lines 56-58). -/
def windowMatch (c : TimeWindowChecker) (now : PyTime) (cfg : DeviceConfig) : Bool :=
  match parseTime (cfg.start_time.getD c.default_start_time),
        parseTime (cfg.end_time.getD c.default_end_time) with
  | some start_time, some end_time => isInWindow start_time end_time now
  | _, _ => false

/-- The in-place mutation performed on a matching config (utils.py lines
72-73): the parsed time objects are added under `parsed_start_time` /
`parsed_end_time`; nothing else changes. -/
def mutateCfg (c : TimeWindowChecker) (cfg : DeviceConfig) : DeviceConfig :=
  match parseTime (cfg.start_time.getD c.default_start_time),
        parseTime (cfg.end_time.getD c.default_end_time) with
  | some start_time, some end_time =>
    { cfg with parsed_start_time := some start_time, parsed_end_time := some end_time }
  | _, _ => cfg

/-- The `for config in device_configs` loop of `get_current_device_config`
(utils.py lines 48-74).  Returns `none` when no config matches; otherwise
the mutated list together with the (mutated) config that was returned. -/
def gcdcLoop (c : TimeWindowChecker) (now : PyTime) :
    List DeviceConfig → Option (List DeviceConfig × DeviceConfig)
  | [] => none
  | cfg :: restCfgs =>
    if windowMatch c now cfg then
      some (mutateCfg c cfg :: restCfgs, mutateCfg c cfg)
    else
      (gcdcLoop c now restCfgs).map (fun p => (cfg :: p.1, p.2))

/-- `TimeWindowChecker.get_current_device_config` (utils.py lines 43-82).
The result is the post-call state of `device_configs` (the Python function
mutates the matching dict in place), the returned config (or `none` for an
empty list), and the found-a-window flag. -/
def TimeWindowChecker.get_current_device_config (c : TimeWindowChecker) (now : PyTime)
    (device_configs : List DeviceConfig) :
    List DeviceConfig × Option DeviceConfig × Bool :=
  match gcdcLoop c now device_configs with
  | some (cfgs, found) => (cfgs, some found, true)
  | none => (device_configs, device_configs.head?, false)

/-! ## Status-output parsing (`device.py`) -/

/-- The idle signature used at `device.py` lines 161, 272 and
`monitoring.py` lines 578, 787: at most two lines, all of which start with
`Volume` — vacuously satisfied by an empty output. -/
def isIdleStatus (stdout_str : String) : Bool :=
  decide ((pySplitlines stdout_str).length ≤ 2) &&
    (pySplitlines stdout_str).all (fun line => pyStartsWith line "Volume")

/-- Recognized media application names, `device.py` line 194. -/
def MEDIA_APPS : List String :=
  ["spotify", "youtube", "netflix", "plex", "disney+", "hulu",
   "amazon prime", "music", "audio", "video", "cast"]

/-- `DeviceManager.async_is_media_playing` (device.py lines 104-209) on a
successfully returned status output (`returncode == 0`); the argument is
the raw decoded stdout, which the code strips before parsing.  Timeouts,
non-zero exits and exceptions all return `False` in the code and are not
part of this pure classification. -/
def async_is_media_playing (stdout_raw : String) : Bool :=
  let stdout_str := pyStrip stdout_raw
  if isIdleStatus stdout_str then false
  else if strContains stdout_str "Casting: Starting" then true
  else if strContains (pyToLower stdout_str) "assistant" then true
  else if strContains stdout_str "Idle" || strContains stdout_str "Nothing is currently playing" then false
  else if (pySplitlines stdout_str).any (fun line =>
      strContains line "State:" &&
        (strContains line "PLAYING" || strContains line "PAUSED" || strContains line "BUFFERING")) then true
  else if (pySplitlines stdout_str).any (fun line =>
      strContains line "Title:" && !strContains line "Dummy") then true
  else if MEDIA_APPS.any (fun app => strContains (pyToLower stdout_str) app) then true
  else if !strContains stdout_str "Dummy" &&
      (strContains (pyToLower stdout_str) "playing" || strContains (pyToLower stdout_str) "paused" ||
        strContains (pyToLower stdout_str) "buffering") then true
  else false

/-- Dashboard indicator tokens, `device.py` line 288. -/
def DASHBOARD_INDICATORS : List String := ["8123", "dashboard", "kiosk", "homeassistant"]

/-- `DeviceManager.async_check_device_status` (device.py lines 214-304) on a
successfully returned status output (`returncode == 0`): is the device
showing our dashboard? -/
def async_check_device_status (stdout_raw : String) : Bool :=
  let stdout_str := pyStrip stdout_raw
  if isIdleStatus stdout_str then false
  else if strContains stdout_str "Idle" || strContains stdout_str "Nothing is currently playing" then false
  else if strContains stdout_str "Dummy" then true
  else if DASHBOARD_INDICATORS.any (fun ind => strContains (pyToLower stdout_str) ind) then true
  else false

/-! ## Casting (`casting.py`) -/

/-- An external `catt` invocation, `<tool> -d <address> <verb> [args]`. -/
inductive CattCmd
  | stop (ip : String)
  | volume (ip : String) (level : Int)
  | cast_site (ip : String) (url : String)
  | status (ip : String)
deriving DecidableEq, Repr

/-- `active_casting_operations`: address to operation start time
(`time.time()`, modelled as integer seconds). -/
abbrev CastOps := List (String × Int)

/-- Dictionary lookup on the in-flight map. -/
def lookupOp : CastOps → String → Option Int
  | [], _ => none
  | (k, v) :: rest, ip => if k = ip then some v else lookupOp rest ip

/-- Dictionary `pop(ip, None)` on the in-flight map. -/
def removeOp (ops : CastOps) (ip : String) : CastOps :=
  ops.filter (fun p => !decide (p.1 = ip))

/-- Outcome of the `catt status` invocation inside
`async_get_current_volume` (casting.py lines 247-309). -/
inductive VolProbe
  | timeout
  | exit_fail
  | output (s : String)
deriving DecidableEq, Repr

/-- The volume-extraction loop of `async_get_current_volume` (casting.py
lines 282-295): the first line starting with `Volume:` is parsed; a parse
failure or the absence of such a line yields the 50 fallback. -/
def parseVolumeFromStatus : List String → Int
  | [] => 50
  | line :: rest =>
    if pyStartsWith line "Volume:" then
      match pyToInt (String.mk (line.data.drop 7)) with
      | some volume => volume
      | none => 50
    else parseVolumeFromStatus rest

/-- `CastingManager.async_get_current_volume` (casting.py lines 247-309):
timeouts, non-zero exits, missing or unparseable volume lines all fall back
to 50. -/
def async_get_current_volume : VolProbe → Int
  | .timeout => 50
  | .exit_fail => 50
  | .output s => parseVolumeFromStatus (pySplitlines (pyStrip s))

/-- The final-volume computation of `async_cast_dashboard` (casting.py
lines 149-167): an explicit configured volume is scaled by 10, otherwise
the recorded pre-cast volume is used; `none` models Python's
`None`/non-numeric guard falling back to 50; the result is clamped to
[0, 100]. -/
def computeFinalVolume (config_volume current_volume : Option Int) : Int :=
  let fv : Option Int :=
    match config_volume with
    | some v => some (v * 10)
    | none => current_volume
  let fv2 : Int :=
    match fv with
    | some v => v
    | none => 50
  max 0 (min 100 fv2)

/-- External-world outcomes for one attempt of the cast retry loop. -/
structure AttemptEnv where
  media_playing : Bool
  volume_status : VolProbe
  cast_timeout : Bool
  cast_exit_ok : Bool
  cast_stdout : String
  verify_status : Bool
deriving Repr

/-- One iteration of the retry loop of `async_cast_dashboard` (casting.py
lines 60-221).  `some b` means the function returns `b`; `none` means the
attempt raised and the loop retries.  The second component is the trace of
`catt` commands the attempt issued (media probe, volume probe, stop,
volume 0, cast, verification probe, final volume). -/
def castAttempt (ip url : String) (config_volume : Option Int) (env : AttemptEnv) :
    Option Bool × List CattCmd :=
  if env.media_playing then (some false, [.status ip])
  else
    let current_volume := async_get_current_volume env.volume_status
    let cmds0 : List CattCmd :=
      [.status ip, .status ip, .stop ip, .volume ip 0, .cast_site ip url]
    if env.cast_timeout then (none, cmds0)
    else if !env.cast_exit_ok then (none, cmds0)
    else
      let cast_likely_succeeded :=
        strContains env.cast_stdout "Casting" && strContains env.cast_stdout "on"
      let cmds1 := cmds0 ++ [.status ip]
      if env.verify_status || cast_likely_succeeded then
        let final_volume := computeFinalVolume config_volume (some current_volume)
        (some true, cmds1 ++ [.volume ip final_volume])
      else (none, cmds1)

/-- The `for attempt in range(max_retries)` loop (casting.py lines 60-223):
one `AttemptEnv` per remaining attempt; exhausting the attempts returns
`False`. -/
def castLoop (ip url : String) (config_volume : Option Int) :
    List AttemptEnv → Bool × List CattCmd
  | [] => (false, [])
  | env :: rest =>
    match castAttempt ip url config_volume env with
    | (some b, cmds) => (b, cmds)
    | (none, cmds) =>
      let r := castLoop ip url config_volume rest
      (r.1, cmds ++ r.2)

/-- `CastingManager.async_cast_dashboard` (casting.py lines 25-227).
Inputs: the in-flight map, the address, the wall clock `now`, the
stuck-operation timeout, and the per-attempt external outcomes.  Output:
the returned boolean, the trace of external commands, and the in-flight map
after the `finally` cleanup.  An operation already in flight that has not
exceeded the timeout is rejected immediately: `False`, no commands, map
untouched (casting.py lines 28-40). -/
def async_cast_dashboard (ops : CastOps) (ip url : String) (config_volume : Option Int)
    (now timeout : Int) (envs : List AttemptEnv) : Bool × List CattCmd × CastOps :=
  match lookupOp ops ip with
  | some last_start =>
    if now - last_start > timeout then
      let r := castLoop ip url config_volume envs
      (r.1, r.2, removeOp ops ip)
    else
      (false, [], ops)
  | none =>
    let r := castLoop ip url config_volume envs
    (r.1, r.2, removeOp ops ip)

/-! ## Monitoring (`monitoring.py`) -/

/-- Device classifications used by the reconciliation loop. -/
inductive Status
  | connected
  | disconnected
  | media_playing
  | other_content
  | casting_in_progress
  | speaker_group_active
  | stopped
  | unknown
deriving DecidableEq, Repr

/-- The fields of an `active_devices` entry that the transition policy
reads and writes.  `last_status_change` is `time.time()` seconds (the code
defaults a missing value to 0 via `get('last_status_change', 0)`), and
`reconnect_attempts` defaults to 0 likewise. -/
structure DeviceState where
  status : Status
  last_status_change : Int
  reconnect_attempts : Nat
deriving DecidableEq, Repr

/-- `update_active_device` with only a status (creates the entry when
missing, monitoring.py lines 354-362; missing numeric fields default to
0 on later reads). -/
def updateStatus : Option DeviceState → Status → Option DeviceState
  | some d, s => some { d with status := s }
  | none, s => some { status := s, last_status_change := 0, reconnect_attempts := 0 }

/-- The `if active_device: update(...)` pattern: update the status only
when the entry already exists. -/
def updateIfExists (dev : Option DeviceState) (s : Status) : Option DeviceState :=
  dev.map (fun d => { d with status := s })

/-- External-world outcomes consumed by `async_reconnect_device`
(monitoring.py lines 724-843): in-flight check, window check, speaker
group probe, media probe, the final idle re-check (`none` = timeout or
error), and the outcome of the delegated cast. -/
structure ReconnectEnv where
  casting_op_active : Bool
  in_window : Bool
  speaker_group_active : Bool
  media_playing : Bool
  status_output : Option String
  cast_success : Bool
deriving Repr

/-- Result of a reconnect call: the device entry afterwards, whether
`async_cast_dashboard` was invoked, and the returned boolean. -/
structure ReconnectResult where
  dev : Option DeviceState
  cast_invoked : Bool
  success : Bool
deriving DecidableEq, Repr

/-- The pre-cast skip test of `async_reconnect_device` (monitoring.py lines
786-792): non-idle output that mentions neither `Dummy` nor `8123` aborts
the reconnect as `other_content`. -/
def reconnectStatusBlocks (stdout_str : String) : Bool :=
  (decide (2 < (pySplitlines stdout_str).length) ||
    !((pySplitlines stdout_str).all (fun line => pyStartsWith line "Volume"))) &&
  (!strContains stdout_str "Dummy" && !strContains stdout_str "8123")

/-- `MonitoringManager.async_reconnect_device` (monitoring.py lines
724-843): guards (in-flight, window, speaker group, media), the
reconnect-attempt increment with its backoff ceiling of 10, the idle
re-check, and the delegated cast with its success/failure bookkeeping. -/
def async_reconnect_device (env : ReconnectEnv) (dev : Option DeviceState) :
    ReconnectResult :=
  if env.casting_op_active then
    ⟨updateStatus dev .casting_in_progress, false, false⟩
  else if !env.in_window then
    ⟨dev, false, false⟩
  else if env.speaker_group_active then
    ⟨updateIfExists dev .speaker_group_active, false, false⟩
  else if env.media_playing then
    ⟨updateIfExists dev .media_playing, false, false⟩
  else
    let existed := dev.isSome
    let dev1 : Option DeviceState :=
      match dev with
      | some d => some { d with reconnect_attempts := d.reconnect_attempts + 1 }
      | none => none
    let backoff : Bool :=
      match dev1 with
      | some d => decide (10 < d.reconnect_attempts)
      | none => false
    if backoff then ⟨dev1, false, false⟩
    else
      match env.status_output with
      | none => ⟨dev1, false, false⟩
      | some raw =>
        let stdout_str := pyStrip raw
        if reconnectStatusBlocks stdout_str then
          ⟨updateIfExists dev1 .other_content, false, false⟩
        else
          let dev2 := updateStatus dev1 .casting_in_progress
          if env.cast_success then
            ⟨(if existed then
                updateIfExists (dev2.map (fun d => { d with reconnect_attempts := 0 })) .connected
              else dev2), true, true⟩
          else
            ⟨(if existed then updateIfExists dev2 .disconnected else dev2), true, false⟩

/-- External-world outcomes consumed by `async_start_device`
(monitoring.py lines 263-343). -/
structure StartEnv where
  media_playing : Bool
  op_in_flight : Bool
  cast_success : Bool
deriving Repr

/-- `MonitoringManager.async_start_device` (monitoring.py lines 263-343)
once the address is known: the media and in-flight guards, then the cast;
both the success and the failure update reset `reconnect_attempts` to 0.
Returns the device entry afterwards and whether a cast was invoked. -/
def async_start_device (env : StartEnv) (dev : Option DeviceState) :
    Option DeviceState × Bool :=
  if env.media_playing then
    ((updateStatus dev .media_playing).map (fun d => { d with reconnect_attempts := 0 }), false)
  else if env.op_in_flight then
    (updateStatus dev .casting_in_progress, false)
  else if env.cast_success then
    ((updateStatus dev .connected).map (fun d => { d with reconnect_attempts := 0 }), true)
  else
    ((updateStatus dev .disconnected).map (fun d => { d with reconnect_attempts := 0 }), true)

/-- Per-tick inputs for one device inside `async_monitor_devices`
(monitoring.py lines 416-670): the gate, the window flag, the in-flight
flag, the config-change flag, the speaker-group probe, the media probe, the
dashboard probe (`is_casting`), the raw idle-check output (`none` =
timeout, which the code treats as not idle), and the wall clock. -/
structure TickEnv where
  switch_enabled : Bool
  in_window : Bool
  op_in_flight : Bool
  instance_change : Bool
  speaker_configured : Bool
  speaker_active : Bool
  media_playing : Bool
  is_casting : Bool
  status_output : Option String
  now : Int
deriving Repr

/-- Result of one device's slice of the monitoring tick. -/
structure TickResult where
  dev : Option DeviceState
  stop_invoked : Bool
  cast_invoked : Bool
  reconnect_called : Bool
deriving DecidableEq, Repr

/-- The hard-coded stabilization interval, monitoring.py line 617
(`min_time_between_reconnects = 30`). -/
def MIN_TIME_BETWEEN_RECONNECTS : Int := 30

/-- One device's slice of `async_monitor_devices` (monitoring.py lines
416-670), in the code's evaluation order: gate, window, in-flight,
instance change (delegating to `async_start_device`), speaker group, media
(with the hold-previous-`connected` exception), then the
connected/idle/other classification with its 30-second reconnect
hysteresis (delegating to `async_reconnect_device`). -/
def monitorDeviceTick (env : TickEnv) (senv : StartEnv) (renv : ReconnectEnv)
    (dev : Option DeviceState) : TickResult :=
  if !env.switch_enabled then
    if env.is_casting then ⟨updateStatus dev .stopped, true, false, false⟩
    else ⟨dev, false, false, false⟩
  else if !env.in_window then
    if env.is_casting then ⟨updateStatus dev .stopped, true, false, false⟩
    else ⟨dev, false, false, false⟩
  else if env.op_in_flight then
    ⟨updateStatus dev .casting_in_progress, false, false, false⟩
  else if env.instance_change then
    let r := async_start_device senv dev
    ⟨r.1, env.is_casting, r.2, false⟩
  else if env.speaker_configured && env.speaker_active then
    ⟨(match dev with
      | some d => some { d with status := .speaker_group_active }
      | none => some ⟨.speaker_group_active, 0, 0⟩), false, false, false⟩
  else if env.media_playing then
    ⟨(match dev with
      | some d =>
        if d.status = .connected then some d
        else some { d with status := .media_playing }
      | none => some ⟨.media_playing, 0, 0⟩), false, false, false⟩
  else
    let is_idle : Bool :=
      match env.status_output with
      | some raw => isIdleStatus (pyStrip raw)
      | none => false
    match dev with
    | some d =>
      if env.is_casting then
        if d.status ≠ .connected then
          ⟨some { d with status := .connected, last_status_change := env.now, reconnect_attempts := 0 },
           false, false, false⟩
        else ⟨some d, false, false, false⟩
      else if is_idle then
        if d.status ≠ .disconnected then
          ⟨some { d with status := .disconnected, last_status_change := env.now },
           false, false, false⟩
        else if env.now - d.last_status_change > MIN_TIME_BETWEEN_RECONNECTS then
          let r := async_reconnect_device renv (some d)
          ⟨r.dev, false, r.cast_invoked, true⟩
        else ⟨some d, false, false, false⟩
      else
        if d.status ≠ .other_content then
          ⟨some { d with status := .other_content, last_status_change := env.now },
           false, false, false⟩
        else ⟨some d, false, false, false⟩
    | none =>
      let st : Status :=
        if env.is_casting then .connected
        else if is_idle then .disconnected
        else .other_content
      ⟨some ⟨st, env.now, 0⟩, false, false, false⟩

/-! ## Concrete instances used in the theorems below -/

/-- A checker with the `const.py` defaults (no global times configured). -/
def allDayChecker : TimeWindowChecker := ⟨"00:00", "23:59"⟩

/-- Noon. -/
def noonPy : PyTime := ⟨12, 0, 0, 0⟩

/-- A window that wraps past midnight and does not contain noon. -/
def nightCfg : DeviceConfig :=
  { start_time := some "22:00", end_time := some "06:00", rest := [("dashboard_url", "N")] }

/-- A daytime window containing noon. -/
def dayCfg : DeviceConfig :=
  { start_time := some "07:00", end_time := some "22:00", rest := [("dashboard_url", "D")] }

/-- First of two all-day windows (both contain noon). -/
def overlapCfgA : DeviceConfig :=
  { start_time := some "00:00", end_time := some "23:59", rest := [("dashboard_url", "A")] }

/-- Second of two all-day windows (both contain noon). -/
def overlapCfgB : DeviceConfig :=
  { start_time := some "00:00", end_time := some "23:59", rest := [("dashboard_url", "B")] }

/-- A tick in which the media probe reports playback. -/
def mediaTickEnv : TickEnv :=
  { switch_enabled := true, in_window := true, op_in_flight := false, instance_change := false,
    speaker_configured := false, speaker_active := false, media_playing := true,
    is_casting := false, status_output := some "State: PLAYING", now := 100 }

/-- A tick in which the device is idle and exactly 30 seconds have elapsed
since the last status change of `disconnectedDev`. -/
def idleTickEnvAt30 : TickEnv :=
  { switch_enabled := true, in_window := true, op_in_flight := false, instance_change := false,
    speaker_configured := false, speaker_active := false, media_playing := false,
    is_casting := false, status_output := some "Volume: 50\n", now := 30 }

/-- Start-device outcomes: nothing playing, no in-flight cast, cast fails. -/
def dummyStartEnv : StartEnv := ⟨false, false, false⟩

/-- Reconnect outcomes: in window, nothing blocking, probe times out. -/
def dummyReconnectEnv : ReconnectEnv := ⟨false, true, false, false, none, false⟩

/-- A device that was showing the dashboard in the previous tick. -/
def connectedDev : DeviceState := ⟨.connected, 0, 0⟩

/-- A device disconnected since time 0. -/
def disconnectedDev : DeviceState := ⟨.disconnected, 0, 0⟩

/-! ## Helper lemmas -/

theorem PyTime.le_refl (a : PyTime) : PyTime.le a a = true := by
  simp [PyTime.le]

theorem PyTime.le_eq_false_of_lt (a b : PyTime) (h : PyTime.lt b a = true) :
    PyTime.le a b = false := by
  cases a; cases b
  simp only [PyTime.lt, PyTime.le, PyTime.mk.injEq, Bool.or_eq_true, Bool.and_eq_true,
    decide_eq_true_eq, Bool.or_eq_false_iff, Bool.and_eq_false_iff, decide_eq_false_iff_not] at h ⊢
  omega

/-! ## Claim theorems -/

/-- C6 (confirmed): for a wrapping window (`end < start`), `now` equal to
the start and `now` equal to the end are both classified in-window, and in
general a time is in-window exactly when `now >= start` or `now <= end`
(utils.py lines 35-41 and 60-67). -/
theorem claim_C6_wrapping_window_inclusive (st et now : PyTime)
    (h : PyTime.lt et st = true) :
    isInWindow st et st = true ∧ isInWindow st et et = true ∧
    isInWindow st et now = (PyTime.le st now || PyTime.le now et) := by
  have hst : PyTime.le st et = false := PyTime.le_eq_false_of_lt st et h
  simp [isInWindow, hst, PyTime.le_refl]

/-- Witness for C6 at the 22:00-06:00 window. -/
theorem claim_C6_wrapping_window_inclusive_witness :
    isInWindow ⟨22, 0, 0, 0⟩ ⟨6, 0, 0, 0⟩ ⟨22, 0, 0, 0⟩ = true ∧
    isInWindow ⟨22, 0, 0, 0⟩ ⟨6, 0, 0, 0⟩ ⟨6, 0, 0, 0⟩ = true ∧
    isInWindow ⟨22, 0, 0, 0⟩ ⟨6, 0, 0, 0⟩ noonPy =
      (PyTime.le ⟨22, 0, 0, 0⟩ noonPy || PyTime.le noonPy ⟨6, 0, 0, 0⟩) :=
  claim_C6_wrapping_window_inclusive ⟨22, 0, 0, 0⟩ ⟨6, 0, 0, 0⟩ noonPy (by decide)

/-- C8 (counterexample): the claim calls the built-in default window "a
broad evening/overnight time range", but `const.py` lines 10-11 give
`00:00`-`23:59`: a non-wrapping window covering the whole day — 03:30 in
the night and noon are both inside it, and it does not wrap past
midnight. -/
theorem claim_C8_counterexample :
    parseTime DEFAULT_START_TIME = some ⟨0, 0, 0, 0⟩ ∧
    parseTime DEFAULT_END_TIME = some ⟨23, 59, 0, 0⟩ ∧
    PyTime.le ⟨0, 0, 0, 0⟩ ⟨23, 59, 0, 0⟩ = true ∧
    isInWindow ⟨0, 0, 0, 0⟩ ⟨23, 59, 0, 0⟩ noonPy = true ∧
    (TimeWindowChecker.ofConfig none none).async_is_within_time_window
      { start_time := none, end_time := none } ⟨3, 30, 0, 0⟩ = true := by decide

/-- C8 (amended): a device config without start/end times falls back to the
configured global start/end times, and when those are also unset the
default window is the all-day range `00:00`-`23:59` (utils.py lines 13-25,
const.py lines 10-11). -/
theorem claim_C8_default_window_fallback (gs ge : Option String) (cfg : DeviceConfig)
    (now : PyTime) (h1 : cfg.start_time = none) (h2 : cfg.end_time = none) :
    (TimeWindowChecker.ofConfig gs ge).async_is_within_time_window cfg now =
      (match parseTime (gs.getD DEFAULT_START_TIME), parseTime (ge.getD DEFAULT_END_TIME) with
       | some st, some et => isInWindow st et now
       | _, _ => true) ∧
    (gs = none → ge = none →
      (TimeWindowChecker.ofConfig gs ge).async_is_within_time_window cfg now =
        (PyTime.le ⟨0, 0, 0, 0⟩ now && PyTime.le now ⟨23, 59, 0, 0⟩)) := by
  constructor
  · unfold TimeWindowChecker.async_is_within_time_window TimeWindowChecker.ofConfig
    rw [h1, h2]
    simp only [Option.getD_none]
  · rintro rfl rfl
    unfold TimeWindowChecker.async_is_within_time_window TimeWindowChecker.ofConfig
    rw [h1, h2]
    simp only [Option.getD_none]
    have hs : parseTime DEFAULT_START_TIME = some ⟨0, 0, 0, 0⟩ := by decide
    have he : parseTime DEFAULT_END_TIME = some ⟨23, 59, 0, 0⟩ := by decide
    rw [hs, he]
    have hle : PyTime.le ⟨0, 0, 0, 0⟩ ⟨23, 59, 0, 0⟩ = true := by decide
    simp [isInWindow, hle]

/-- Witness for C8 (amended) with everything unset at noon. -/
theorem claim_C8_default_window_fallback_witness :
    (TimeWindowChecker.ofConfig none none).async_is_within_time_window
        { start_time := none, end_time := none, rest := [] } noonPy =
      (PyTime.le ⟨0, 0, 0, 0⟩ noonPy && PyTime.le noonPy ⟨23, 59, 0, 0⟩) :=
  (claim_C8_default_window_fallback none none _ noonPy rfl rfl).2 rfl rfl

theorem gcdcLoop_append (c : TimeWindowChecker) (now : PyTime)
    (pre : List DeviceConfig) (cfg : DeviceConfig) (post : List DeviceConfig)
    (hpre : ∀ x ∈ pre, windowMatch c now x = false)
    (hcfg : windowMatch c now cfg = true) :
    gcdcLoop c now (pre ++ cfg :: post) =
      some (pre ++ mutateCfg c cfg :: post, mutateCfg c cfg) := by
  induction pre with
  | nil => simp [gcdcLoop, hcfg]
  | cons a tl ih =>
    have ha : windowMatch c now a = false := hpre a (List.mem_cons_self a tl)
    have ih2 := ih (fun x hx => hpre x (List.mem_cons_of_mem a hx))
    simp [gcdcLoop, ha, ih2]

/-- C1 (amended): when at least one window matches the current time,
`get_current_device_config` selects the FIRST matching window in list
order — the loop returns on the first hit (utils.py lines 48-74), it does
not keep scanning for a later match. -/
theorem claim_C1_first_match_selected (c : TimeWindowChecker) (now : PyTime)
    (pre post : List DeviceConfig) (cfg : DeviceConfig)
    (hpre : ∀ x ∈ pre, windowMatch c now x = false)
    (hcfg : windowMatch c now cfg = true) :
    c.get_current_device_config now (pre ++ cfg :: post) =
      (pre ++ mutateCfg c cfg :: post, some (mutateCfg c cfg), true) := by
  unfold TimeWindowChecker.get_current_device_config
  rw [gcdcLoop_append c now pre cfg post hpre hcfg]

/-- C1 (counterexample): with two windows that both contain noon, the
selection returns the first window (`dashboard_url` A), not the last
(`dashboard_url` B), refuting "the last matching window in list order is
selected". -/
theorem claim_C1_counterexample :
    windowMatch allDayChecker noonPy overlapCfgA = true ∧
    windowMatch allDayChecker noonPy overlapCfgB = true ∧
    allDayChecker.get_current_device_config noonPy [overlapCfgA, overlapCfgB] =
      ([{ overlapCfgA with parsed_start_time := some ⟨0, 0, 0, 0⟩, parsed_end_time := some ⟨23, 59, 0, 0⟩ },
        overlapCfgB],
       some { overlapCfgA with parsed_start_time := some ⟨0, 0, 0, 0⟩, parsed_end_time := some ⟨23, 59, 0, 0⟩ },
       true) ∧
    overlapCfgA.rest ≠ overlapCfgB.rest := by decide

/-- Witness for C1 (amended): a non-matching night window followed by a
matching day window; the day window is selected. -/
theorem claim_C1_first_match_selected_witness :
    allDayChecker.get_current_device_config noonPy [nightCfg, dayCfg] =
      ([nightCfg, mutateCfg allDayChecker dayCfg], some (mutateCfg allDayChecker dayCfg), true) :=
  claim_C1_first_match_selected allDayChecker noonPy [nightCfg] [] dayCfg
    (by decide) (by decide)

theorem mutateCfg_fields (c : TimeWindowChecker) (cfg : DeviceConfig) :
    (mutateCfg c cfg).start_time = cfg.start_time ∧
    (mutateCfg c cfg).end_time = cfg.end_time ∧
    (mutateCfg c cfg).rest = cfg.rest := by
  unfold mutateCfg
  split <;> simp

theorem windowMatch_parse (c : TimeWindowChecker) (now : PyTime) (cfg : DeviceConfig)
    (h : windowMatch c now cfg = true) :
    ∃ st et, parseTime (cfg.start_time.getD c.default_start_time) = some st ∧
      parseTime (cfg.end_time.getD c.default_end_time) = some et ∧
      (mutateCfg c cfg).parsed_start_time = some st ∧
      (mutateCfg c cfg).parsed_end_time = some et ∧
      isInWindow st et now = true := by
  unfold windowMatch at h
  unfold mutateCfg
  rcases hs : parseTime (cfg.start_time.getD c.default_start_time) with _ | st <;>
    rcases he : parseTime (cfg.end_time.getD c.default_end_time) with _ | et <;>
    rw [hs, he] at h <;> simp_all

theorem gcdcLoop_some_decomp (c : TimeWindowChecker) (now : PyTime) :
    ∀ (cfgs lst : List DeviceConfig) (found : DeviceConfig),
      gcdcLoop c now cfgs = some (lst, found) →
      ∃ pre cfg post, cfgs = pre ++ cfg :: post ∧
        (∀ x ∈ pre, windowMatch c now x = false) ∧
        windowMatch c now cfg = true ∧
        found = mutateCfg c cfg ∧
        lst = pre ++ mutateCfg c cfg :: post := by
  intro cfgs
  induction cfgs with
  | nil => intro lst found h; simp [gcdcLoop] at h
  | cons a tl ih =>
    intro lst found h
    by_cases ha : windowMatch c now a = true
    · rw [gcdcLoop, if_pos ha] at h
      obtain ⟨h1, h2⟩ := Prod.mk.injEq .. ▸ Option.some.inj h
      exact ⟨[], a, tl, rfl, by simp, ha, h2.symm, h1.symm⟩
    · have ha2 : windowMatch c now a = false := by
        simpa using ha
      rw [gcdcLoop, if_neg (by simp [ha2])] at h
      rw [Option.map_eq_some'] at h
      obtain ⟨⟨l2, f2⟩, h2, heq⟩ := h
      obtain ⟨hl, hf⟩ := Prod.mk.injEq .. ▸ heq
      obtain ⟨pre, cfg, post, e1, e2, e3, e4, e5⟩ := ih l2 f2 h2
      refine ⟨a :: pre, cfg, post, by simp [e1], ?_, e3, hf ▸ e4, ?_⟩
      · intro x hx
        rcases List.mem_cons.mp hx with rfl | hx2
        · exact ha2
        · exact e2 x hx2
      · rw [← hl, e5]
        simp

/-- C10 (confirmed): the only mutation `get_current_device_config` makes is
adding `parsed_start_time` / `parsed_end_time` to the first matching
config; every other key of the returned config and every other config in
the list are unchanged; with no match the list is untouched and the first
config is returned with `false`; an empty list yields `(none, false)`
(utils.py lines 43-82). -/
theorem claim_C10_selection_frame (c : TimeWindowChecker) (now : PyTime)
    (cfgs : List DeviceConfig) :
    (cfgs = [] → c.get_current_device_config now cfgs = ([], none, false)) ∧
    (gcdcLoop c now cfgs = none →
      c.get_current_device_config now cfgs = (cfgs, cfgs.head?, false)) ∧
    (∀ lst found, gcdcLoop c now cfgs = some (lst, found) →
      c.get_current_device_config now cfgs = (lst, some found, true) ∧
      ∃ pre cfg post, cfgs = pre ++ cfg :: post ∧
        (∀ x ∈ pre, windowMatch c now x = false) ∧
        windowMatch c now cfg = true ∧
        lst = pre ++ found :: post ∧
        found.start_time = cfg.start_time ∧
        found.end_time = cfg.end_time ∧
        found.rest = cfg.rest ∧
        (∃ st et, parseTime (cfg.start_time.getD c.default_start_time) = some st ∧
          parseTime (cfg.end_time.getD c.default_end_time) = some et ∧
          found.parsed_start_time = some st ∧ found.parsed_end_time = some et)) := by
  refine ⟨?_, ?_, ?_⟩
  · rintro rfl
    rfl
  · intro h
    unfold TimeWindowChecker.get_current_device_config
    rw [h]
  · intro lst found h
    constructor
    · unfold TimeWindowChecker.get_current_device_config
      rw [h]
    · obtain ⟨pre, cfg, post, e1, e2, e3, e4, e5⟩ := gcdcLoop_some_decomp c now cfgs lst found h
      obtain ⟨f1, f2, f3⟩ := mutateCfg_fields c cfg
      obtain ⟨st, et, p1, p2, p3, p4, _⟩ := windowMatch_parse c now cfg e3
      exact ⟨pre, cfg, post, e1, e2, e3, by rw [e5, e4], by rw [e4]; exact f1,
        by rw [e4]; exact f2, by rw [e4]; exact f3,
        st, et, p1, p2, by rw [e4]; exact p3, by rw [e4]; exact p4⟩

/-- Witness for C10 at an empty window list. -/
theorem claim_C10_selection_frame_witness :
    allDayChecker.get_current_device_config noonPy [] = ([], none, false) :=
  (claim_C10_selection_frame allDayChecker noonPy []).1 rfl

/-- C2 (confirmed): invoking the cast while an operation for the same
address is active and not past the stuck-operation timeout returns `False`
immediately: no external command is issued and the in-flight map is
untouched (casting.py lines 25-40). -/
theorem claim_C2_single_flight_reject (ops : CastOps) (ip url : String)
    (config_volume : Option Int) (now timeout last_start : Int) (envs : List AttemptEnv)
    (h1 : lookupOp ops ip = some last_start) (h2 : now - last_start ≤ timeout) :
    async_cast_dashboard ops ip url config_volume now timeout envs = (false, [], ops) := by
  unfold async_cast_dashboard
  simp only [h1]
  rw [if_neg (by omega)]

/-- Witness for C2: a cast started at time 0, re-requested at time 5 with a
300-second timeout. -/
theorem claim_C2_single_flight_reject_witness :
    async_cast_dashboard [("192.168.1.9", 0)] "192.168.1.9" "http://ha:8123/d" none 5 300 [] =
      (false, [], [("192.168.1.9", 0)]) :=
  claim_C2_single_flight_reject [("192.168.1.9", 0)] "192.168.1.9" "http://ha:8123/d"
    none 5 300 0 [] (by decide) (by decide)

theorem parseVolume_no_volume_line :
    ∀ ls : List String, ls.all (fun l => !pyStartsWith l "Volume:") = true →
      parseVolumeFromStatus ls = 50 := by
  intro ls
  induction ls with
  | nil => intro _; rfl
  | cons l rest ih =>
    intro h
    rw [List.all_cons, Bool.and_eq_true, Bool.not_eq_true'] at h
    rw [parseVolumeFromStatus, if_neg (by simp [h.1])]
    exact ih h.2

/-- C7 (confirmed): the final volume is the configured volume scaled by 10
when present, otherwise the recorded pre-cast volume; the result is always
clamped to [0, 100]; a missing/non-numeric value falls back to 50; and the
pre-cast probe itself yields 50 on timeout, on a failed exit, and when no
`Volume:` line is present (casting.py lines 149-167 and 247-299).  The
cast pipeline applies exactly this value: a verified attempt's command
trace ends with a `volume` command carrying `computeFinalVolume` of the
configured and probed volumes (casting.py lines 169-178). -/
theorem claim_C7_final_volume (config_volume current_volume : Option Int)
    (s : String) (ip url : String) (env : AttemptEnv) :
    (∀ v, config_volume = some v →
      computeFinalVolume config_volume current_volume = max 0 (min 100 (v * 10))) ∧
    (config_volume = none → ∀ c0, current_volume = some c0 →
      computeFinalVolume config_volume current_volume = max 0 (min 100 c0)) ∧
    (config_volume = none → current_volume = none →
      computeFinalVolume config_volume current_volume = 50) ∧
    0 ≤ computeFinalVolume config_volume current_volume ∧
    computeFinalVolume config_volume current_volume ≤ 100 ∧
    async_get_current_volume .timeout = 50 ∧
    async_get_current_volume .exit_fail = 50 ∧
    ((pySplitlines (pyStrip s)).all (fun l => !pyStartsWith l "Volume:") = true →
      async_get_current_volume (.output s) = 50) ∧
    (env.media_playing = false → env.cast_timeout = false → env.cast_exit_ok = true →
      env.verify_status = true →
      (castAttempt ip url config_volume env).2.getLast? =
        some (.volume ip (computeFinalVolume config_volume
          (some (async_get_current_volume env.volume_status))))) := by
  refine ⟨?_, ?_, ?_, ?_, ?_, rfl, rfl, ?_, ?_⟩
  · rintro v rfl
    cases current_volume <;> rfl
  · rintro rfl c0 rfl
    rfl
  · rintro rfl rfl
    rfl
  · rcases config_volume with _ | v <;> rcases current_volume with _ | c0 <;>
      simp only [computeFinalVolume] <;> omega
  · rcases config_volume with _ | v <;> rcases current_volume with _ | c0 <;>
      simp only [computeFinalVolume] <;> omega
  · intro h
    exact parseVolume_no_volume_line _ h
  · intro e1 e2 e3 e4
    unfold castAttempt
    rw [e1, e2, e3, e4]
    simp

/-- Witness for C7: configured volume 7 gives 70; no configured volume
restores the probed 35; an unparseable probe output gives 50; a verified
attempt applies the computed volume last. -/
theorem claim_C7_final_volume_witness :
    computeFinalVolume (some 7) (some 35) = max 0 (min 100 (7 * 10)) ∧
    computeFinalVolume none (some 35) = max 0 (min 100 35) ∧
    computeFinalVolume none none = 50 ∧
    async_get_current_volume (.output "State: PLAYING") = 50 ∧
    (castAttempt "192.168.1.9" "http://ha:8123/d" (some 7)
        ⟨false, .output "Volume: 35", false, true, "Casting d on device", true⟩).2.getLast? =
      some (.volume "192.168.1.9" (computeFinalVolume (some 7)
        (some (async_get_current_volume (.output "Volume: 35"))))) :=
  ⟨(claim_C7_final_volume (some 7) (some 35) "" "" "" ⟨false, .timeout, false, false, "", false⟩).1 7 rfl,
   (claim_C7_final_volume none (some 35) "" "" "" ⟨false, .timeout, false, false, "", false⟩).2.1 rfl 35 rfl,
   (claim_C7_final_volume none none "" "" "" ⟨false, .timeout, false, false, "", false⟩).2.2.1 rfl rfl,
   (claim_C7_final_volume none none "State: PLAYING" "" ""
      ⟨false, .timeout, false, false, "", false⟩).2.2.2.2.2.2.2.1 (by decide),
   (claim_C7_final_volume (some 7) none "" "192.168.1.9" "http://ha:8123/d"
      ⟨false, .output "Volume: 35", false, true, "Casting d on device", true⟩).2.2.2.2.2.2.2.2
      rfl rfl rfl rfl⟩

/-- C9 (confirmed): an empty status output has zero lines, so the idle
signature ("at most 2 lines, all starting with `Volume`") holds vacuously:
the media probe and the dashboard probe both return `False` (device.py
lines 160-163 and 271-274), and the monitoring tick classifies a
previously connected device as idle, transitioning it to `disconnected`
(monitoring.py lines 577-578 and 620-627). -/
theorem claim_C9_empty_status_idle :
    async_is_media_playing "" = false ∧
    async_check_device_status "" = false ∧
    isIdleStatus "" = true ∧
    pySplitlines "" = [] ∧
    (monitorDeviceTick
        { switch_enabled := true, in_window := true, op_in_flight := false,
          instance_change := false, speaker_configured := false, speaker_active := false,
          media_playing := false, is_casting := false, status_output := some "", now := 100 }
        dummyStartEnv dummyReconnectEnv (some connectedDev)).dev =
      some ⟨.disconnected, 100, 0⟩ := by decide

/-- C3 (counterexample): a device that was `connected` keeps the
`connected` classification on the first tick with media playing AND on the
second tick with media still playing — it is never transitioned to
`media_playing` while the hold branch applies (monitoring.py lines
541-547), refuting "transitions to media_playing on the following
tick". -/
theorem claim_C3_counterexample :
    (monitorDeviceTick mediaTickEnv dummyStartEnv dummyReconnectEnv (some connectedDev)).dev =
      some connectedDev ∧
    (monitorDeviceTick mediaTickEnv dummyStartEnv dummyReconnectEnv
        (monitorDeviceTick mediaTickEnv dummyStartEnv dummyReconnectEnv (some connectedDev)).dev).dev =
      some connectedDev ∧
    connectedDev.status = Status.connected ∧
    Status.connected ≠ Status.media_playing := by decide

/-- C3 (amended): in every tick in which the media probe reports playback
and the device's previous classification is `connected`, the tick leaves
the device state completely unchanged (still `connected`) and performs no
stop, cast or reconnect; the device therefore holds `connected` for as
long as media keeps playing, not for exactly one tick (monitoring.py lines
534-559). -/
theorem claim_C3_hold_connected_while_media (env : TickEnv) (senv : StartEnv)
    (renv : ReconnectEnv) (d : DeviceState)
    (h1 : env.switch_enabled = true) (h2 : env.in_window = true)
    (h3 : env.op_in_flight = false) (h4 : env.instance_change = false)
    (h5 : (env.speaker_configured && env.speaker_active) = false)
    (h6 : env.media_playing = true) (h7 : d.status = .connected) :
    monitorDeviceTick env senv renv (some d) = ⟨some d, false, false, false⟩ := by
  simp [monitorDeviceTick, h1, h2, h3, h4, h5, h6, h7]

/-- Witness for C3 (amended) at the concrete media tick. -/
theorem claim_C3_hold_connected_while_media_witness :
    monitorDeviceTick mediaTickEnv dummyStartEnv dummyReconnectEnv (some connectedDev) =
      ⟨some connectedDev, false, false, false⟩ :=
  claim_C3_hold_connected_while_media mediaTickEnv dummyStartEnv dummyReconnectEnv
    connectedDev rfl rfl rfl rfl rfl rfl rfl

/-- C5 (counterexample): a device disconnected since time 0 observed idle
at time exactly 30 (elapsed time equal to the 30-second stabilization
interval) is NOT reconnected — the code requires strictly more than 30
seconds (`>` at monitoring.py line 630), refuting "including the case of
exactly 30 seconds". -/
theorem claim_C5_counterexample :
    idleTickEnvAt30.now - disconnectedDev.last_status_change = MIN_TIME_BETWEEN_RECONNECTS ∧
    monitorDeviceTick idleTickEnvAt30 dummyStartEnv dummyReconnectEnv (some disconnectedDev) =
      ⟨some disconnectedDev, false, false, false⟩ := by decide

/-- C5 (amended): on a tick that classifies the device idle: if it was not
previously `disconnected` it transitions to `disconnected` with the
transition time recorded and no reconnect; if it was `disconnected`, a
reconnect is attempted iff STRICTLY more than 30 seconds have elapsed
since the recorded transition (at exactly 30 seconds nothing happens), and
otherwise the state is unchanged with no cast (monitoring.py lines
613-635). -/
theorem claim_C5_idle_hysteresis (env : TickEnv) (senv : StartEnv) (renv : ReconnectEnv)
    (d : DeviceState) (raw : String)
    (h1 : env.switch_enabled = true) (h2 : env.in_window = true)
    (h3 : env.op_in_flight = false) (h4 : env.instance_change = false)
    (h5 : (env.speaker_configured && env.speaker_active) = false)
    (h6 : env.media_playing = false) (h7 : env.is_casting = false)
    (h8 : env.status_output = some raw) (h9 : isIdleStatus (pyStrip raw) = true) :
    (d.status ≠ .disconnected →
      monitorDeviceTick env senv renv (some d) =
        ⟨some { d with status := .disconnected, last_status_change := env.now }, false, false, false⟩) ∧
    (d.status = .disconnected →
      ((monitorDeviceTick env senv renv (some d)).reconnect_called = true ↔
        MIN_TIME_BETWEEN_RECONNECTS < env.now - d.last_status_change) ∧
      (env.now - d.last_status_change ≤ MIN_TIME_BETWEEN_RECONNECTS →
        monitorDeviceTick env senv renv (some d) = ⟨some d, false, false, false⟩)) := by
  refine ⟨?_, ?_⟩
  · intro hd
    simp [monitorDeviceTick, h1, h2, h3, h4, h5, h6, h7, h8, h9, hd]
  · intro hd
    constructor
    · by_cases hcmp : MIN_TIME_BETWEEN_RECONNECTS < env.now - d.last_status_change
      · simp [monitorDeviceTick, h1, h2, h3, h4, h5, h6, h7, h8, h9, hd, hcmp]
      · simp [monitorDeviceTick, h1, h2, h3, h4, h5, h6, h7, h8, h9, hd, hcmp]
    · intro hle
      have hcmp : ¬ (env.now - d.last_status_change > MIN_TIME_BETWEEN_RECONNECTS) := by omega
      simp [monitorDeviceTick, h1, h2, h3, h4, h5, h6, h7, h8, h9, hd, hcmp]

/-- Witness for C5 (amended): a connected device found idle transitions to
`disconnected` at the tick's clock with no reconnect. -/
theorem claim_C5_idle_hysteresis_witness :
    monitorDeviceTick idleTickEnvAt30 dummyStartEnv dummyReconnectEnv (some connectedDev) =
      ⟨some { connectedDev with status := .disconnected, last_status_change := 30 },
       false, false, false⟩ :=
  (claim_C5_idle_hysteresis idleTickEnvAt30 dummyStartEnv dummyReconnectEnv connectedDev
      "Volume: 50\n" rfl rfl rfl rfl rfl rfl rfl rfl (by decide)).1 (by decide)

/-- C4 (confirmed): once a device's reconnect-attempt counter is above 10,
`async_reconnect_device` never invokes a cast, returns failure, and leaves
the counter above 10 (the increment at monitoring.py lines 761-772 only
raises it), so the suspension persists; a successful reconnect sets the
counter to 0 with classification `connected` (monitoring.py lines
820-832); and the monitoring tick's own counter reset happens on observing
the dashboard active — a `connected`, hence non-`disconnected`,
classification (monitoring.py lines 598-610). -/
theorem claim_C4_backoff_and_reset (renv : ReconnectEnv) (d : DeviceState)
    (tenv : TickEnv) (senv : StartEnv) :
    (10 < d.reconnect_attempts →
      (async_reconnect_device renv (some d)).cast_invoked = false ∧
      (async_reconnect_device renv (some d)).success = false ∧
      (∃ d2, (async_reconnect_device renv (some d)).dev = some d2 ∧
        10 < d2.reconnect_attempts)) ∧
    ((async_reconnect_device renv (some d)).success = true →
      ∀ d2, (async_reconnect_device renv (some d)).dev = some d2 →
        d2.reconnect_attempts = 0 ∧ d2.status = .connected) ∧
    (tenv.switch_enabled = true → tenv.in_window = true → tenv.op_in_flight = false →
      tenv.instance_change = false → (tenv.speaker_configured && tenv.speaker_active) = false →
      tenv.media_playing = false → tenv.is_casting = true → d.status ≠ .connected →
      monitorDeviceTick tenv senv renv (some d) =
        ⟨some { d with status := .connected, last_status_change := tenv.now, reconnect_attempts := 0 },
         false, false, false⟩) := by
  refine ⟨?_, ?_, ?_⟩
  · intro hgt
    have hb : decide (10 < d.reconnect_attempts + 1) = true := by
      rw [decide_eq_true_eq]; omega
    unfold async_reconnect_device
    by_cases e1 : renv.casting_op_active <;>
      by_cases e2 : renv.in_window <;>
        by_cases e3 : renv.speaker_group_active <;>
          by_cases e4 : renv.media_playing <;>
            simp [e1, e2, e3, e4, hb, updateStatus, updateIfExists] <;> omega
  · intro hs d2 hd2
    unfold async_reconnect_device at hs hd2
    by_cases e1 : renv.casting_op_active
    · simp [e1, updateStatus] at hs
    · by_cases e2 : renv.in_window
      · by_cases e3 : renv.speaker_group_active
        · simp [e1, e2, e3, updateIfExists] at hs
        · by_cases e4 : renv.media_playing
          · simp [e1, e2, e3, e4, updateIfExists] at hs
          · by_cases e5 : (10 : Nat) < d.reconnect_attempts + 1
            · have hb : decide (10 < d.reconnect_attempts + 1) = true := by
                rw [decide_eq_true_eq]; omega
              simp [e1, e2, e3, e4, hb] at hs
            · have hb : decide (10 < d.reconnect_attempts + 1) = false := by
                rw [decide_eq_false_iff_not]; omega
              rcases hso : renv.status_output with _ | raw
              · simp [e1, e2, e3, e4, hb, hso] at hs
              · by_cases e6 : reconnectStatusBlocks (pyStrip raw) = true
                · simp [e1, e2, e3, e4, hb, hso, e6, updateIfExists] at hs
                · by_cases e7 : renv.cast_success
                  · simp [e1, e2, e3, e4, hb, hso, e6, e7, updateStatus, updateIfExists] at hd2
                    rw [← hd2]
                    exact ⟨rfl, rfl⟩
                  · simp [e1, e2, e3, e4, hb, hso, e6, e7, updateStatus, updateIfExists] at hs
      · simp [e1, e2] at hs
  · intro t1 t2 t3 t4 t5 t6 t7 hd
    simp [monitorDeviceTick, t1, t2, t3, t4, t5, t6, t7, hd]

/-- Witness for C4 at a counter of 11: no cast and the counter stays above
10. -/
theorem claim_C4_backoff_and_reset_witness :
    (async_reconnect_device dummyReconnectEnv (some ⟨.disconnected, 0, 11⟩)).cast_invoked = false :=
  ((claim_C4_backoff_and_reset dummyReconnectEnv ⟨.disconnected, 0, 11⟩ idleTickEnvAt30
      dummyStartEnv).1 (by decide)).1

end CCD
